import Mathlib

/-!
Verification of `src/robovac_logger.py` (Eufy RoboVac live logger).

The script is thin sequential orchestration around vendored collaborators.
We embed its own logic shallowly:
* Python dicts become association lists `List (String × V)` with
  `getMap` as `dict.get` (first match, `none` when absent);
* Python truthiness of optional strings (`None` and `""` are falsy)
  becomes `strTruthy`;
* the external collaborators (country-code lookup tables, the Tuya
  API client, the broadcast listener, the RoboVac local-protocol
  client) are passed in as abstract functions / outcome parameters,
  exactly as the spec treats them (opaque collaborators).
-/

namespace RobovacLogger

/-- Python truthiness of an optional string: `None` and `""` are falsy. -/
def strTruthy : Option String → Bool
  | some s => !(s == "")
  | none => false

/-- Python `a or b` for an optional string `a` and a string default `b`. -/
def pyOrStr (o : Option String) (d : String) : String :=
  if strTruthy o then o.getD "" else d

/-! ## Change Reporter (`log_state_update`, src/robovac_logger.py lines 187-205)

A vacuum state is a Python dict from field names to values; we model it
as an association list.  `log_state_update` closes over the mutable
`previous_state`; we model it as a pure function from the previous
snapshot and the current state to the new snapshot plus the optional
printed ChangeSet (`none` = no output). -/

/-- A state mapping (Python dict from field name to value). -/
abbrev StateMap (V : Type) := List (String × V)

/-- `m.get k` on a Python dict: the value at the first matching key, or `none`. -/
def getMap {V : Type} (m : StateMap V) (k : String) : Option V :=
  (m.find? (fun p => p.1 == k)).map (fun p => p.2)

/-- The dict comprehension at lines 194-198:
`{key: current[key] for key in current if previous.get(key) != current[key]}`. -/
def computeChanges {V : Type} [DecidableEq V] (previous current : StateMap V) : StateMap V :=
  current.filter (fun p => decide (getMap previous p.1 ≠ some p.2))

/-- Result of one invocation of the update callback: the new value of the
`previous_state` closure variable and the optional printed ChangeSet. -/
structure UpdateResult (V : Type) where
  snapshot : StateMap V
  output : Option (StateMap V)
deriving DecidableEq, Repr

/-- `log_state_update` (lines 187-205): returns early with no output when the
current state is empty; otherwise computes the ChangeSet, replaces
`previous_state` with a copy of the current state (line 199, before the
emptiness test at line 200), and prints the ChangeSet only when non-empty. -/
def log_state_update {V : Type} [DecidableEq V]
    (previous current : StateMap V) : UpdateResult V :=
  if current.isEmpty then
    { snapshot := previous, output := none }
  else
    let changes := computeChanges previous current
    if changes.isEmpty then
      { snapshot := current, output := none }
    else
      { snapshot := current, output := some changes }

/-- C1: for every previous snapshot and non-empty current state, the ChangeSet
computed by the update callback is exactly
`{k: current[k] for k in current if previous.get(k) != current[k]}`, and when
that ChangeSet is empty the callback produces no output at all. -/
theorem changeset_is_filter_and_empty_suppresses_output {V : Type} [DecidableEq V]
    (previous current : StateMap V) (h : current ≠ []) :
    (log_state_update previous current).output =
      (if (current.filter (fun p => decide (getMap previous p.1 ≠ some p.2))) = []
       then none
       else some (current.filter (fun p => decide (getMap previous p.1 ≠ some p.2)))) := by
  unfold log_state_update computeChanges
  rcases current with _ | ⟨p, rest⟩
  · exact absurd rfl h
  · simp only [List.isEmpty_cons, Bool.false_eq_true, if_false, List.isEmpty_iff]
    split <;> simp_all

/-- Witness for C1 at a concrete input: previous `{"a" ↦ 1}`, current
`{"a" ↦ 1, "b" ↦ 2}`; the ChangeSet is `{"b" ↦ 2}` and is printed. -/
theorem changeset_is_filter_witness :
    ([("a", 1), ("b", 2)] : StateMap Nat) ≠ [] ∧
    (log_state_update [("a", 1)] [("a", 1), ("b", 2)]).output =
      (if (([("a", 1), ("b", 2)] : StateMap Nat).filter
            (fun p => decide (getMap [("a", 1)] p.1 ≠ some p.2))) = []
       then none
       else some (([("a", 1), ("b", 2)] : StateMap Nat).filter
            (fun p => decide (getMap [("a", 1)] p.1 ≠ some p.2)))) :=
  ⟨by decide, changeset_is_filter_and_empty_suppresses_output [("a", 1)] [("a", 1), ("b", 2)]
      (by decide)⟩

/-- C4: the first-ever update (empty previous snapshot) reports every field of
a non-empty current state as changed: the ChangeSet equals the entire current
state and is printed. -/
theorem first_update_reports_all_fields {V : Type} [DecidableEq V]
    (current : StateMap V) (h : current ≠ []) :
    computeChanges ([] : StateMap V) current = current ∧
    (log_state_update ([] : StateMap V) current).output = some current := by
  have hch : computeChanges ([] : StateMap V) current = current := by
    unfold computeChanges
    apply List.filter_eq_self.mpr
    intro a _
    simp [getMap]
  refine ⟨hch, ?_⟩
  unfold log_state_update
  rcases current with _ | ⟨p, rest⟩
  · exact absurd rfl h
  · simp only [List.isEmpty_cons, Bool.false_eq_true, if_false, hch]

/-- Witness for C4 at the concrete current state `{"battery" ↦ 80}`. -/
theorem first_update_reports_all_fields_witness :
    ([("battery", 80)] : StateMap Nat) ≠ [] ∧
    (computeChanges ([] : StateMap Nat) [("battery", 80)] = [("battery", 80)] ∧
     (log_state_update ([] : StateMap Nat) [("battery", 80)]).output = some [("battery", 80)]) :=
  ⟨by decide, first_update_reports_all_fields [("battery", 80)] (by decide)⟩

/-- C3 counterexample: with previous snapshot `{"a" ↦ 1, "b" ↦ 2}` and current
state `{"a" ↦ 1}`, the ChangeSet is empty and nothing is printed, yet the
stored snapshot is replaced (line 199 runs before the emptiness test at line
200): the key `"b"` present only in the older snapshot is dropped, so the
callback is not a no-op on the stored StateSnapshot. -/
theorem empty_changeset_counterexample :
    computeChanges [("a", 1), ("b", 2)] ([("a", 1)] : StateMap Nat) = [] ∧
    (log_state_update [("a", 1), ("b", 2)] ([("a", 1)] : StateMap Nat)).output = none ∧
    (log_state_update [("a", 1), ("b", 2)] ([("a", 1)] : StateMap Nat)).snapshot ≠
      [("a", 1), ("b", 2)] := by
  refine ⟨by decide, by decide, ?_⟩
  decide

/-- C3 (amended): for every previous snapshot and non-empty current state whose
ChangeSet is empty, the callback prints nothing — but it is not a full no-op:
the stored StateSnapshot is replaced with the current state (which may drop
keys absent from the current state) rather than left unchanged. -/
theorem empty_changeset_suppresses_output {V : Type} [DecidableEq V]
    (previous current : StateMap V) (hcur : current ≠ [])
    (hch : computeChanges previous current = []) :
    (log_state_update previous current).output = none ∧
    (log_state_update previous current).snapshot = current := by
  unfold log_state_update
  rcases current with _ | ⟨p, rest⟩
  · exact absurd rfl hcur
  · simp only [List.isEmpty_cons, Bool.false_eq_true, if_false, hch]
    simp

/-- Witness for the amended C3 at previous `{"a" ↦ 1, "b" ↦ 2}`,
current `{"a" ↦ 1}`. -/
theorem empty_changeset_suppresses_output_witness :
    ([("a", 1)] : StateMap Nat) ≠ [] ∧
    computeChanges [("a", 1), ("b", 2)] ([("a", 1)] : StateMap Nat) = [] ∧
    ((log_state_update [("a", 1), ("b", 2)] ([("a", 1)] : StateMap Nat)).output = none ∧
     (log_state_update [("a", 1), ("b", 2)] ([("a", 1)] : StateMap Nat)).snapshot = [("a", 1)]) :=
  ⟨by decide, by decide,
    empty_changeset_suppresses_output [("a", 1), ("b", 2)] [("a", 1)] (by decide) (by decide)⟩

/-- C5: after every update on a non-empty current state with a non-empty
ChangeSet, the stored StateSnapshot equals the current state exactly — a full
replacement, not a merge — so every key absent from the current state is
absent from the new snapshot (and hence from future diffs). -/
theorem snapshot_is_full_replacement {V : Type} [DecidableEq V]
    (previous current : StateMap V) (hcur : current ≠ [])
    (hch : computeChanges previous current ≠ []) :
    (log_state_update previous current).snapshot = current ∧
    ∀ k, getMap current k = none → getMap (log_state_update previous current).snapshot k = none := by
  have hsnap : (log_state_update previous current).snapshot = current := by
    unfold log_state_update
    rcases current with _ | ⟨p, rest⟩
    · exact absurd rfl hcur
    · simp only [List.isEmpty_cons, Bool.false_eq_true, if_false]
      split <;> rfl
  exact ⟨hsnap, fun k hk => by rw [hsnap]; exact hk⟩

/-- Witness for C5: previous `{"a" ↦ 1, "b" ↦ 2}`, current `{"a" ↦ 3}`; the
snapshot becomes exactly `{"a" ↦ 3}` and the stale key `"b"` disappears. -/
theorem snapshot_is_full_replacement_witness :
    ([("a", 3)] : StateMap Nat) ≠ [] ∧
    computeChanges [("a", 1), ("b", 2)] ([("a", 3)] : StateMap Nat) ≠ [] ∧
    ((log_state_update [("a", 1), ("b", 2)] ([("a", 3)] : StateMap Nat)).snapshot = [("a", 3)] ∧
     ∀ k, getMap ([("a", 3)] : StateMap Nat) k = none →
       getMap (log_state_update [("a", 1), ("b", 2)] ([("a", 3)] : StateMap Nat)).snapshot k = none) :=
  ⟨by decide, by decide,
    snapshot_is_full_replacement [("a", 1), ("b", 2)] [("a", 3)] (by decide) (by decide)⟩

/-! ## Region / country derivation (src/robovac_logger.py lines 75-93)

The four lookup tables live in the vendored `custom_components/robovac/
countries` module, an opaque external collaborator; we abstract them as
function parameters.  `tuyaRegionCode = none` models the key
`tuya_region_code` being absent from the settings' `tuya_home` dict;
`some s` models the key being present with string value `s` (the empty
string is falsy, hence `or "EU"`). -/

/-- The fields of `user_info` read by the derivation; `none` models an absent
key (or a `None` value, which `dict.get` also yields). -/
structure UserInfo where
  phone_code : Option String
  country : Option String
deriving DecidableEq, Repr

/-- The region/country-code derivation at lines 78-93, with the vendored
country-table lookups passed in abstractly. Returns `(region, country_code)`. -/
def deriveRegionCountry
    (get_phone_code_by_region : String → String)
    (get_region_by_phone_code : String → String)
    (get_region_by_country_code : String → String)
    (get_phone_code_by_country_code : String → String)
    (tuyaRegionCode : Option String) (user_info : UserInfo) : String × String :=
  match tuyaRegionCode with
  | some rc =>
      let region := if rc == "" then "EU" else rc
      if strTruthy user_info.phone_code then
        (region, user_info.phone_code.getD "")
      else
        (region, get_phone_code_by_region region)
  | none =>
      if strTruthy user_info.phone_code then
        (get_region_by_phone_code (user_info.phone_code.getD ""),
         user_info.phone_code.getD "")
      else if strTruthy user_info.country then
        (get_region_by_country_code (user_info.country.getD ""),
         get_phone_code_by_country_code (user_info.country.getD ""))
      else
        ("EU", "44")

/-- C2: the four-rule precedence of region/country derivation.  Rule 1: a
present `tuya_region_code` wins — region is its value ("EU" when empty),
country code is the user's phone code when present (non-empty) else the
lookup from the region.  Rule 2: else a present phone code gives the region
via lookup and is itself the country code.  Rule 3: else a present country
gives both via lookups.  Rule 4: else region "EU", country code "44". -/
theorem region_derivation_precedence
    (f_pc_region f_region_pc f_region_cc f_pc_cc : String → String)
    (trc : Option String) (ui : UserInfo) :
    (∀ rc, trc = some rc →
      deriveRegionCountry f_pc_region f_region_pc f_region_cc f_pc_cc trc ui =
        ((if rc = "" then "EU" else rc),
         if strTruthy ui.phone_code then ui.phone_code.getD ""
         else f_pc_region (if rc = "" then "EU" else rc))) ∧
    (trc = none → strTruthy ui.phone_code = true →
      deriveRegionCountry f_pc_region f_region_pc f_region_cc f_pc_cc trc ui =
        (f_region_pc (ui.phone_code.getD ""), ui.phone_code.getD "")) ∧
    (trc = none → strTruthy ui.phone_code = false → strTruthy ui.country = true →
      deriveRegionCountry f_pc_region f_region_pc f_region_cc f_pc_cc trc ui =
        (f_region_cc (ui.country.getD ""), f_pc_cc (ui.country.getD ""))) ∧
    (trc = none → strTruthy ui.phone_code = false → strTruthy ui.country = false →
      deriveRegionCountry f_pc_region f_region_pc f_region_cc f_pc_cc trc ui =
        ("EU", "44")) := by
  refine ⟨?_, ?_, ?_, ?_⟩
  · intro rc hrc
    subst hrc
    unfold deriveRegionCountry
    by_cases hrc0 : rc = "" <;> by_cases hpc : strTruthy ui.phone_code <;>
      simp [hrc0, hpc]
  · intro htrc hpc
    subst htrc
    unfold deriveRegionCountry
    simp [hpc]
  · intro htrc hpc hc
    subst htrc
    unfold deriveRegionCountry
    simp [hpc, hc]
  · intro htrc hpc hc
    subst htrc
    unfold deriveRegionCountry
    simp [hpc, hc]

/-- Witness for C2, exercising each branch independently with concrete lookup
tables: rule 1 with `tuya_region_code = "US"` (and with an empty code
defaulting to "EU"), rule 2 with only `phone_code = "49"`, rule 3 with only a
country, and rule 4 with neither. -/
theorem region_derivation_precedence_witness :
    (deriveRegionCountry (fun _ => "1") (fun _ => "DE") (fun _ => "US") (fun _ => "1")
        (some "US") { phone_code := none, country := none } =
      ("US", "1")) ∧
    (deriveRegionCountry (fun _ => "44") (fun _ => "DE") (fun _ => "US") (fun _ => "1")
        (some "") { phone_code := some "49", country := none } =
      ("EU", "49")) ∧
    (deriveRegionCountry (fun _ => "1") (fun _ => "DE") (fun _ => "US") (fun _ => "1")
        none { phone_code := some "49", country := none } =
      ("DE", "49")) ∧
    (deriveRegionCountry (fun _ => "1") (fun _ => "DE") (fun _ => "US") (fun _ => "1")
        none { phone_code := none, country := some "US" } =
      ("US", "1")) ∧
    (deriveRegionCountry (fun _ => "1") (fun _ => "DE") (fun _ => "US") (fun _ => "1")
        none { phone_code := none, country := none } =
      ("EU", "44")) := by
  refine ⟨?_, ?_, ?_, ?_, ?_⟩
  · exact (region_derivation_precedence (fun _ => "1") (fun _ => "DE") (fun _ => "US")
      (fun _ => "1") (some "US") { phone_code := none, country := none }).1 "US" rfl
  · exact (region_derivation_precedence (fun _ => "44") (fun _ => "DE") (fun _ => "US")
      (fun _ => "1") (some "") { phone_code := some "49", country := none }).1 "" rfl
  · exact (region_derivation_precedence (fun _ => "1") (fun _ => "DE") (fun _ => "US")
      (fun _ => "1") none { phone_code := some "49", country := none }).2.1 rfl (by decide)
  · exact (region_derivation_precedence (fun _ => "1") (fun _ => "DE") (fun _ => "US")
      (fun _ => "1") none { phone_code := none, country := some "US" }).2.2.1 rfl
      (by decide) (by decide)
  · exact (region_derivation_precedence (fun _ => "1") (fun _ => "DE") (fun _ => "US")
      (fun _ => "1") none { phone_code := none, country := none }).2.2.2 rfl
      (by decide) (by decide)

/-! ## Device selection (src/robovac_logger.py lines 103-129)

The loop over `device_data.get("devices", [])`.  The Tuya client's
`get_device` is an opaque collaborator; we pass it in as a function that
either raises (`Except.error`) or returns a record whose `localKey` may be
absent, `None`, or empty — all falsy.  The two `_LOGGER.debug` calls are
modelled as an accumulated list of log events. -/

/-- The fields of a cloud device record read by the loop. `wifi_mac` models
`item.get("wifi", {}).get("mac")`. -/
structure DeviceItem where
  id : String
  alias_name : Option String
  name : Option String
  appliance : Option String
  product_code : Option String
  wifi_mac : Option String
deriving DecidableEq, Repr

/-- The record returned by the Tuya client's `get_device`; only `localKey` is
read. -/
structure TuyaDevice where
  localKey : Option String
deriving DecidableEq, Repr

/-- The per-device debug log events of the loop (lines 112 and 117). -/
inductive ResolverLog where
  | tuyaApiError (deviceId : String)
  | noLocalKey (deviceId : String)
deriving DecidableEq, Repr

/-- The dict returned at lines 120-127. -/
structure VacuumDescriptor where
  id : String
  name : String
  model : String
  description : String
  mac : Option String
  access_token : String
deriving DecidableEq, Repr

/-- The descriptor built from an accepted device (lines 120-127):
name is `alias_name or name or "RoboVac"`, model is
`product.get("product_code", "")`, description is
`item.get("name", "Eufy RoboVac")`. -/
def mkDescriptor (item : DeviceItem) (localKey : String) : VacuumDescriptor :=
  { id := item.id
    name := pyOrStr item.alias_name (pyOrStr item.name "RoboVac")
    model := item.product_code.getD ""
    description := item.name.getD "Eufy RoboVac"
    mac := item.wifi_mac
    access_token := localKey }

/-- The message of the `VacuumLoginError` raised at line 129. -/
def noVacuumMsg : String := "No RoboVac devices were found on this Eufy account."

/-- The device loop of `_fetch_first_vacuum_sync` (lines 103-129): skip
non-"Cleaning" products; on a Tuya API error log and continue; on a falsy
local key log and continue; otherwise return the descriptor of the first
surviving device; raise `VacuumLoginError` when the list is exhausted.
Returns the accumulated debug log and the outcome. -/
def selectVacuum (get_device : String → Except String TuyaDevice) :
    List DeviceItem → List ResolverLog × Except String VacuumDescriptor
  | [] => ([], .error noVacuumMsg)
  | item :: rest =>
    if item.appliance = some "Cleaning" then
      match get_device item.id with
      | .error _ =>
          let r := selectVacuum get_device rest
          (.tuyaApiError item.id :: r.1, r.2)
      | .ok td =>
          if strTruthy td.localKey then
            ([], .ok (mkDescriptor item (td.localKey.getD "")))
          else
            let r := selectVacuum get_device rest
            (.noLocalKey item.id :: r.1, r.2)
    else
      selectVacuum get_device rest

/-- Whether the loop would accept a device: "Cleaning" product, `get_device`
succeeds, and the returned local key is non-empty. -/
def accepts (get_device : String → Except String TuyaDevice) (item : DeviceItem) : Bool :=
  item.appliance = some "Cleaning" &&
    (match get_device item.id with
     | .ok td => strTruthy td.localKey
     | .error _ => false)

/-- C6: (i) a device whose product appliance is not "Cleaning" is skipped;
(ii) a per-candidate Tuya API error is logged and iteration continues with the
rest of the list; (iii) the first device in list order that is accepted (all
earlier devices rejected) is returned with its non-empty local key; (iv) if no
device is accepted the loop ends in `VacuumLoginError`. -/
theorem device_selection_spec (get_device : String → Except String TuyaDevice) :
    (∀ (item : DeviceItem) (rest : List DeviceItem),
      item.appliance ≠ some "Cleaning" →
      selectVacuum get_device (item :: rest) = selectVacuum get_device rest) ∧
    (∀ (item : DeviceItem) (rest : List DeviceItem) (e : String),
      item.appliance = some "Cleaning" → get_device item.id = .error e →
      selectVacuum get_device (item :: rest) =
        (ResolverLog.tuyaApiError item.id :: (selectVacuum get_device rest).1,
         (selectVacuum get_device rest).2)) ∧
    (∀ (pre : List DeviceItem) (item : DeviceItem) (post : List DeviceItem) (td : TuyaDevice),
      (∀ d ∈ pre, accepts get_device d = false) →
      item.appliance = some "Cleaning" → get_device item.id = .ok td →
      strTruthy td.localKey = true →
      (selectVacuum get_device (pre ++ item :: post)).2 =
        .ok (mkDescriptor item (td.localKey.getD ""))) ∧
    (∀ devices : List DeviceItem,
      (∀ d ∈ devices, accepts get_device d = false) →
      (selectVacuum get_device devices).2 = .error noVacuumMsg) := by
  have hskip : ∀ (item : DeviceItem) (rest : List DeviceItem),
      item.appliance ≠ some "Cleaning" →
      selectVacuum get_device (item :: rest) = selectVacuum get_device rest := by
    intro item rest h
    simp only [selectVacuum]
    simp [h]
  have herr : ∀ (item : DeviceItem) (rest : List DeviceItem) (e : String),
      item.appliance = some "Cleaning" → get_device item.id = .error e →
      selectVacuum get_device (item :: rest) =
        (ResolverLog.tuyaApiError item.id :: (selectVacuum get_device rest).1,
         (selectVacuum get_device rest).2) := by
    intro item rest e h hg
    simp only [selectVacuum]
    simp [h, hg]
  have hreject : ∀ (item : DeviceItem) (rest : List DeviceItem),
      accepts get_device item = false →
      (selectVacuum get_device (item :: rest)).2 = (selectVacuum get_device rest).2 := by
    intro item rest hrej
    by_cases h : item.appliance = some "Cleaning"
    · cases hg : get_device item.id with
      | error e =>
        simp only [selectVacuum]
        simp [h, hg]
      | ok td =>
        have hkey : strTruthy td.localKey = false := by
          simp only [accepts, h, hg] at hrej
          simpa using hrej
        simp only [selectVacuum]
        simp [h, hg, hkey]
    · simp only [selectVacuum]
      simp [h]
  have hnone : ∀ devices : List DeviceItem,
      (∀ d ∈ devices, accepts get_device d = false) →
      (selectVacuum get_device devices).2 = .error noVacuumMsg := by
    intro devices
    induction devices with
    | nil =>
      intro _
      simp [selectVacuum]
    | cons item rest ih =>
      intro hall
      rw [hreject item rest (hall item (List.mem_cons_self item rest))]
      exact ih (fun d hd => hall d (List.mem_cons_of_mem item hd))
  refine ⟨hskip, herr, ?_, hnone⟩
  intro pre item post td hpre hcl hg hkey
  induction pre with
  | nil =>
    rw [List.nil_append]
    simp only [selectVacuum]
    simp [hcl, hg, hkey]
  | cons d ds ih =>
    have hd : accepts get_device d = false := hpre d (List.mem_cons_self d ds)
    have hstep := hreject d (ds ++ item :: post) hd
    rw [List.cons_append, hstep]
    exact ih (fun x hx => hpre x (List.mem_cons_of_mem d hx))

/-- Witness for C6, the spec's end-to-end scenario: a non-"Cleaning" device is
skipped, the first "Cleaning" candidate's Tuya lookup raises (logged,
continues), the second candidate succeeds with local key "KEY2" and is
returned; and a list whose devices all fail yields the login error. -/
theorem device_selection_spec_witness :
    (selectVacuum
        (fun i => if i = "d2" then .ok ⟨some "KEY2"⟩ else .error "boom")
        (⟨"d0", none, none, some "Light", none, none⟩ ::
         [⟨"d1", none, none, some "Cleaning", none, none⟩,
          ⟨"d2", some "Robo", some "RoboVac X8", some "Cleaning", some "T2262", some "aa:bb"⟩]) =
      selectVacuum
        (fun i => if i = "d2" then .ok ⟨some "KEY2"⟩ else .error "boom")
        [⟨"d1", none, none, some "Cleaning", none, none⟩,
         ⟨"d2", some "Robo", some "RoboVac X8", some "Cleaning", some "T2262", some "aa:bb"⟩]) ∧
    (selectVacuum
        (fun i => if i = "d2" then .ok ⟨some "KEY2"⟩ else .error "boom")
        [⟨"d1", none, none, some "Cleaning", none, none⟩,
         ⟨"d2", some "Robo", some "RoboVac X8", some "Cleaning", some "T2262", some "aa:bb"⟩] =
      (ResolverLog.tuyaApiError "d1" ::
         (selectVacuum (fun i => if i = "d2" then .ok ⟨some "KEY2"⟩ else .error "boom")
           [⟨"d2", some "Robo", some "RoboVac X8", some "Cleaning", some "T2262", some "aa:bb"⟩]).1,
       (selectVacuum (fun i => if i = "d2" then .ok ⟨some "KEY2"⟩ else .error "boom")
           [⟨"d2", some "Robo", some "RoboVac X8", some "Cleaning", some "T2262", some "aa:bb"⟩]).2)) ∧
    ((selectVacuum
        (fun i => if i = "d2" then .ok ⟨some "KEY2"⟩ else .error "boom")
        ([⟨"d0", none, none, some "Light", none, none⟩,
          ⟨"d1", none, none, some "Cleaning", none, none⟩] ++
         ⟨"d2", some "Robo", some "RoboVac X8", some "Cleaning", some "T2262", some "aa:bb"⟩ ::
           [])).2 =
      .ok (mkDescriptor
        ⟨"d2", some "Robo", some "RoboVac X8", some "Cleaning", some "T2262", some "aa:bb"⟩
        "KEY2")) ∧
    ((selectVacuum
        (fun i => if i = "d2" then .ok ⟨some "KEY2"⟩ else .error "boom")
        [⟨"d0", none, none, some "Light", none, none⟩,
         ⟨"d1", none, none, some "Cleaning", none, none⟩]).2 = .error noVacuumMsg) := by
  have h := device_selection_spec
    (fun i => if i = "d2" then .ok ⟨some "KEY2"⟩ else .error "boom")
  refine ⟨?_, ?_, ?_, ?_⟩
  · exact h.1 ⟨"d0", none, none, some "Light", none, none⟩ _ (by decide)
  · exact h.2.1 ⟨"d1", none, none, some "Cleaning", none, none⟩ _ "boom" rfl (by rfl)
  · exact h.2.2.1
      [⟨"d0", none, none, some "Light", none, none⟩,
       ⟨"d1", none, none, some "Cleaning", none, none⟩]
      ⟨"d2", some "Robo", some "RoboVac X8", some "Cleaning", some "T2262", some "aa:bb"⟩
      [] ⟨some "KEY2"⟩ (by decide) rfl (by rfl) (by decide)
  · exact h.2.2.2
      [⟨"d0", none, none, some "Light", none, none⟩,
       ⟨"d1", none, none, some "Cleaning", none, none⟩] (by decide)

/-! ## LAN discovery (src/robovac_logger.py lines 137-164)

`handle_discovery` inspects a broadcast payload dict and may resolve the
pending `ip_future`.  We model the future as `Option String` (`none` =
pending, `some ip` = resolved) and the callback as a pure transition on it.
The broadcast listener, the event loop, and the wall-clock timeout are
opaque collaborators: `discover_device_ip` is modelled as a trace of its
effects, parameterised by the outcome of `discovery.start()` and of the
timeout-bounded wait on the future. -/

/-- The fields of a broadcast payload read by `handle_discovery`; `none`
models an absent key. -/
structure Payload where
  gwId : Option String
  ip : Option String
deriving DecidableEq, Repr

/-- `handle_discovery` (lines 142-148): ignore payloads whose `gwId` differs
from the target device id; when the `ip` is truthy and the future is not yet
done, set the result; otherwise leave the future as is. -/
def handle_discovery (device_id : String) (fut : Option String) (payload : Payload) :
    Option String :=
  if payload.gwId ≠ some device_id then fut
  else if strTruthy payload.ip && fut.isNone then payload.ip
  else fut

/-- C7: a payload with a non-matching `gwId` never resolves the pending
result; a matching payload with a non-empty `ip` resolves a pending result;
and once resolved the result never changes again — in particular any sequence
of later payloads (duplicates included) leaves it untouched. -/
theorem discovery_resolves_exactly_once (device_id : String) :
    (∀ (fut : Option String) (payload : Payload),
      payload.gwId ≠ some device_id → handle_discovery device_id fut payload = fut) ∧
    (∀ (payload : Payload) (s : String),
      payload.gwId = some device_id → payload.ip = some s → s ≠ "" →
      handle_discovery device_id none payload = some s) ∧
    (∀ (x : String) (payload : Payload),
      handle_discovery device_id (some x) payload = some x) ∧
    (∀ (x : String) (payloads : List Payload),
      payloads.foldl (handle_discovery device_id) (some x) = some x) := by
  have hdone : ∀ (x : String) (payload : Payload),
      handle_discovery device_id (some x) payload = some x := by
    intro x payload
    unfold handle_discovery
    split
    · rfl
    · simp
  refine ⟨?_, ?_, hdone, ?_⟩
  · intro fut payload h
    unfold handle_discovery
    simp [h]
  · intro payload s hgw hip hs
    unfold handle_discovery
    simp [hgw, hip, strTruthy, hs]
  · intro x payloads
    induction payloads with
    | nil => rfl
    | cons p ps ih => rw [List.foldl_cons, hdone x p]; exact ih

/-- Witness for C7 with device id "dev": a payload for "other" leaves the
future pending; a matching payload with ip "192.168.1.42" resolves it; a
later duplicate of that payload does not change the resolved value. -/
theorem discovery_resolves_exactly_once_witness :
    handle_discovery "dev" none ⟨some "other", some "10.0.0.1"⟩ = none ∧
    handle_discovery "dev" none ⟨some "dev", some "192.168.1.42"⟩ = some "192.168.1.42" ∧
    handle_discovery "dev" (some "192.168.1.42") ⟨some "dev", some "192.168.1.42"⟩ =
      some "192.168.1.42" ∧
    [⟨some "dev", some "192.168.1.42"⟩, ⟨some "dev", some "10.0.0.9"⟩].foldl
      (handle_discovery "dev") (some "192.168.1.42") = some "192.168.1.42" := by
  have h := discovery_resolves_exactly_once "dev"
  exact ⟨h.1 none ⟨some "other", some "10.0.0.1"⟩ (by decide),
         h.2.1 ⟨some "dev", some "192.168.1.42"⟩ "192.168.1.42" rfl rfl (by decide),
         h.2.2.1 "192.168.1.42" ⟨some "dev", some "192.168.1.42"⟩,
         h.2.2.2 "192.168.1.42" [⟨some "dev", some "192.168.1.42"⟩, ⟨some "dev", some "10.0.0.9"⟩]⟩

/-- The default discovery timeout (the `timeout` parameter of
`discover_device_ip`, line 137), in seconds. -/
def defaultDiscoveryTimeoutSeconds : Nat := 60

/-- The message of the `VacuumLoginError` raised on discovery timeout
(lines 160-162). -/
def discoveryTimeoutMsg : String :=
  "Timed out waiting for the vacuum to announce itself on the local network."

/-- The externally observable effects of `discover_device_ip`. -/
inductive DiscoveryEffect where
  | startListener
  | closeListener
  | raiseLoginError (msg : String)
  | returnIp (ip : String)
deriving DecidableEq, Repr

/-- Outcome of `discovery.start()`: `error msg` models
`DiscoveryPortsNotAvailableException` with the given message. -/
abbrev StartOutcome := Except String Unit

/-- Outcome of `asyncio.wait_for(ip_future, timeout)`: `error ()` models
`asyncio.TimeoutError` (no matching payload within the timeout), `ok ip` a
resolved future. -/
abbrev WaitOutcome := Except Unit String

/-- The effect trace of `discover_device_ip` (lines 150-164).  On startup
failure: `close()` then raise (lines 153-155).  Otherwise the `finally`
block closes the listener exactly once, whether the wait resolves (`return`,
line 158) or times out and re-raises as `VacuumLoginError` (lines 159-162). -/
def discover_device_ip (startOutcome : StartOutcome) (waitOutcome : WaitOutcome) :
    List DiscoveryEffect :=
  match startOutcome with
  | .error msg =>
      [.startListener, .closeListener, .raiseLoginError msg]
  | .ok () =>
      match waitOutcome with
      | .ok ip => [.startListener, .returnIp ip, .closeListener]
      | .error () => [.startListener, .closeListener, .raiseLoginError discoveryTimeoutMsg]

/-- C8: on every exit path of `discover_device_ip` the listener is closed
exactly once; when the listener started but no matching payload arrived
within the timeout (default 60 seconds), the trace ends by raising
`VacuumLoginError` with the no-local-announcement message; and neither the
timeout path nor the startup-failure path returns an IP. -/
theorem discovery_timeout_and_close_once (startOutcome : StartOutcome)
    (waitOutcome : WaitOutcome) :
    (discover_device_ip startOutcome waitOutcome).count DiscoveryEffect.closeListener = 1 ∧
    (startOutcome = .ok () → waitOutcome = .error () →
      (discover_device_ip startOutcome waitOutcome).getLast? =
        some (.raiseLoginError discoveryTimeoutMsg)) ∧
    (∀ ip, startOutcome = .ok () → waitOutcome = .error () →
      DiscoveryEffect.returnIp ip ∉ discover_device_ip startOutcome waitOutcome) ∧
    defaultDiscoveryTimeoutSeconds = 60 := by
  refine ⟨?_, ?_, ?_, rfl⟩
  · rcases startOutcome with msg | ⟨⟩
    · simp [discover_device_ip, List.count_cons]
    · rcases waitOutcome with ⟨⟩ | ip <;>
        simp [discover_device_ip, List.count_cons]
  · intro hs hw
    subst hs; subst hw
    rfl
  · intro ip hs hw
    subst hs; subst hw
    simp [discover_device_ip]

/-- Witness for C8 on the timeout path: listener started, wait timed out,
close happens once and the trace ends with the timeout error. -/
theorem discovery_timeout_and_close_once_witness :
    (discover_device_ip (.ok ()) (.error ())).count DiscoveryEffect.closeListener = 1 ∧
    (discover_device_ip (.ok ()) (.error ())).getLast? =
      some (.raiseLoginError discoveryTimeoutMsg) ∧
    DiscoveryEffect.returnIp "192.168.1.42" ∉ discover_device_ip (.ok ()) (.error ()) :=
  ⟨(discovery_timeout_and_close_once (.ok ()) (.error ())).1,
   (discovery_timeout_and_close_once (.ok ()) (.error ())).2.1 rfl rfl,
   (discovery_timeout_and_close_once (.ok ()) (.error ())).2.2.1 "192.168.1.42" rfl rfl⟩

/-! ## Model-code check and session construction (src/robovac_logger.py lines 207-226)

`main` derives `model_code = (vacuum_details.get("model") or "")[:5]`,
rejects an empty code, then constructs the `RoboVac` session; the vendored
`RoboVac` constructor is not part of this repository's sources. -/

/-- Modelled from the spec: the vendored `RoboVac` constructor
(`custom_components/robovac/robovac.py`) is absent from src/.  Per spec §4.3,
"Construction fails with `VacuumLoginError` if the model code is not in the
set of recognized/supported models" — the constructor raises
`ModelNotSupportedException` exactly when the model code is not in the
(abstract) supported set. -/
def roboVacConstruct (supportedModels : List String) (modelCode : String) :
    Except Unit String :=
  if modelCode ∈ supportedModels then .ok modelCode else .error ()

/-- The message of the `VacuumLoginError` raised at line 209. -/
def noModelCodeMsg : String := "The vacuum did not report a model code."

/-- The message of the `VacuumLoginError` raised at line 223. -/
def unsupportedModelMsg (modelCode : String) : String :=
  "Model " ++ modelCode ++ " is not supported by the RoboVac integration."

/-- What the session-setup fragment of `main` did: its result, whether the
`RoboVac` constructor was invoked, and whether a connection was attempted. -/
structure SetupTrace where
  result : Except String String
  constructorInvoked : Bool
  connectAttempted : Bool
deriving Repr

/-- Lines 207-226 of `main`: `model_code` is the first five characters of
`vacuum_details.get("model") or ""`; an empty code raises before the
constructor runs; a `ModelNotSupportedException` from the constructor is
re-raised as the normalized `VacuumLoginError`, and only a successful
construction proceeds to `async_connect`. -/
def sessionSetup (supportedModels : List String) (model : Option String) : SetupTrace :=
  let model_code := (pyOrStr model "").take 5
  if model_code == "" then
    { result := .error noModelCodeMsg
      constructorInvoked := false
      connectAttempted := false }
  else
    match roboVacConstruct supportedModels model_code with
    | .error () =>
        { result := .error (unsupportedModelMsg model_code)
          constructorInvoked := true
          connectAttempted := false }
    | .ok mc =>
        { result := .ok mc
          constructorInvoked := true
          connectAttempted := true }

/-- C9: whenever the 5-character model code (the first five characters of the
product code) is non-empty but not a supported model, session construction
fails and the orchestrator raises the normalized `VacuumLoginError` without
ever attempting a connection. -/
theorem unsupported_model_never_connects (supportedModels : List String)
    (model : Option String)
    (hne : (pyOrStr model "").take 5 ≠ "")
    (hns : (pyOrStr model "").take 5 ∉ supportedModels) :
    (sessionSetup supportedModels model).result =
      .error (unsupportedModelMsg ((pyOrStr model "").take 5)) ∧
    (sessionSetup supportedModels model).connectAttempted = false := by
  unfold sessionSetup roboVacConstruct
  simp only [beq_iff_eq, hne, if_false, hns]
  simp [hne, hns]

/-- Witness for C9: product code "T9999XYZ" truncates to model code "T9999",
which is not among the supported models `["T2262", "T2080"]`; setup fails
with the unsupported-model error and no connection is attempted. -/
theorem unsupported_model_never_connects_witness :
    (pyOrStr (some "T9999XYZ") "").take 5 ≠ "" ∧
    (pyOrStr (some "T9999XYZ") "").take 5 ∉ ["T2262", "T2080"] ∧
    ((sessionSetup ["T2262", "T2080"] (some "T9999XYZ")).result =
       .error (unsupportedModelMsg ((pyOrStr (some "T9999XYZ") "").take 5)) ∧
     (sessionSetup ["T2262", "T2080"] (some "T9999XYZ")).connectAttempted = false) :=
  ⟨by decide, by decide,
   unsupported_model_never_connects ["T2262", "T2080"] (some "T9999XYZ")
     (by decide) (by decide)⟩

/-- C10: when the resolved device's product code is empty (or absent), the
derived model code is empty and the orchestrator raises `VacuumLoginError`
("The vacuum did not report a model code.") before the session constructor is
ever invoked, for any supported-model set. -/
theorem empty_model_code_rejected_early (supportedModels : List String)
    (model : Option String) (h : strTruthy model = false) :
    (sessionSetup supportedModels model).result = .error noModelCodeMsg ∧
    (sessionSetup supportedModels model).constructorInvoked = false ∧
    (sessionSetup supportedModels model).connectAttempted = false := by
  have hm : pyOrStr model "" = "" := by
    unfold pyOrStr
    simp [h]
  have htake : ("" : String).take 5 = "" := rfl
  unfold sessionSetup
  simp [hm, htake]

/-- Witness for C10 at the concrete empty product code `""` (the default
`product.get("product_code", "")` yields for a record without one). -/
theorem empty_model_code_rejected_early_witness :
    strTruthy (some "") = false ∧
    ((sessionSetup ["T2262"] (some "")).result = .error noModelCodeMsg ∧
     (sessionSetup ["T2262"] (some "")).constructorInvoked = false ∧
     (sessionSetup ["T2262"] (some "")).connectAttempted = false) :=
  ⟨by decide, empty_model_code_rejected_early ["T2262"] (some "") (by decide)⟩

end RobovacLogger
